import Mathlib

/-!
Shallow embedding of the StellarSplit webhook delivery subsystem.

The definitions below are direct translations of the TypeScript source:
* `WebhookDeliveryService` (trigger, queueing, rate limiting, delivery
  processing, stats) from `webhook-delivery.service.ts`;
* `WebhooksService` (registry operations: update, incrementFailureCount,
  resetFailureCount, updateLastTriggered, findOne/findAll) from
  `webhooks.service.ts`;
* the `Webhook` / `WebhookDelivery` entities and the `UpdateWebhookDto`.

Modelling conventions: timestamps are `Nat` (milliseconds); database-managed
columns (`createdAt`, `updatedAt`, uuid generation) are outside the model —
fresh delivery ids are drawn from a `Nat` counter; the in-memory rate-limit
`Map` is an association list; an HTTP attempt's result is a value of
`HttpOutcome` (either a completed response — axios is configured with
`validateStatus: () => true`, so every status yields a response — or a thrown
exception carrying an optional message); `ProcessResult.raises` records
whether `processDelivery` re-throws, which is exactly the condition under
which the hosting Bull queue schedules a retry (the `@Process` handler
`handleDelivery` catches and re-throws unchanged).
-/

namespace StellarSplit

/-- Delivery record status enum (`DeliveryStatus` in `webhook-delivery.entity.ts`). -/
inductive DeliveryStatus
  | pending
  | success
  | failed
deriving DecidableEq, Repr

/-- The `Webhook` entity (subscription): application-managed columns. -/
structure Webhook where
  id : String
  userId : String
  url : String
  events : List String
  secret : String
  isActive : Bool
  failureCount : Nat
  lastTriggeredAt : Option Nat
deriving DecidableEq, Repr

/-- The `WebhookDelivery` entity: application-managed columns. -/
structure WebhookDelivery where
  id : String
  webhookId : String
  eventType : String
  payload : String
  status : DeliveryStatus
  attemptCount : Nat
  httpStatus : Option Nat
  responseBody : Option String
  errorMessage : Option String
  deliveredAt : Option Nat
deriving DecidableEq, Repr

/-- `TIMEOUT_MS = 5000` in `WebhookDeliveryService`. -/
def TIMEOUT_MS : Nat := 5000

/-- `MAX_RETRIES = 3` in `WebhookDeliveryService`. -/
def MAX_RETRIES : Nat := 3

/-- `RATE_LIMIT_WINDOW_MS = 60000` in `WebhookDeliveryService`. -/
def RATE_LIMIT_WINDOW_MS : Nat := 60000

/-- `MAX_REQUESTS_PER_WINDOW = 10` in `WebhookDeliveryService`. -/
def MAX_REQUESTS_PER_WINDOW : Nat := 10

/-- One entry of the in-memory `rateLimitMap`. -/
structure RateLimitEntry where
  count : Nat
  resetAt : Nat
deriving DecidableEq, Repr

/-- The `rateLimitMap : Map<string, {count, resetAt}>`, as an association list. -/
abbrev RateLimitMap : Type := List (String × RateLimitEntry)

/-- `Map.get`. -/
def mapGet (m : RateLimitMap) (k : String) : Option RateLimitEntry :=
  match m with
  | [] => none
  | (k0, v0) :: rest => if k0 = k then some v0 else mapGet rest k

/-- `Map.set` (overwrites the entry for `k`, appends if absent). -/
def mapSet (m : RateLimitMap) (k : String) (v : RateLimitEntry) : RateLimitMap :=
  match m with
  | [] => [(k, v)]
  | (k0, v0) :: rest => if k0 = k then (k, v) :: rest else (k0, v0) :: mapSet rest k v

/-- `checkRateLimit(webhookId)`: returns the admission decision and the map
after the call's mutation. Fresh or expired window (`now > resetAt`): new
entry with `count = 1`, allow. At capacity (`count >= 10`): reject without
mutation. Otherwise increment and allow. -/
def checkRateLimit (m : RateLimitMap) (now : Nat) (webhookId : String) :
    Bool × RateLimitMap :=
  match mapGet m webhookId with
  | none => (true, mapSet m webhookId ⟨1, now + RATE_LIMIT_WINDOW_MS⟩)
  | some limit =>
    if now > limit.resetAt then
      (true, mapSet m webhookId ⟨1, now + RATE_LIMIT_WINDOW_MS⟩)
    else if limit.count ≥ MAX_REQUESTS_PER_WINDOW then
      (false, m)
    else
      (true, mapSet m webhookId ⟨limit.count + 1, limit.resetAt⟩)

/-- JavaScript `s.substring(0, n)`: the first `n` characters. -/
def truncate (s : String) (n : Nat) : String := ⟨s.data.take n⟩

/-- Result of an HTTP delivery attempt, as seen by `processDelivery`'s
`try` block: either a completed response (any status — axios is configured
with `validateStatus: () => true`) or a thrown exception (timeout, DNS,
connection refused) with its optional `message`. -/
inductive HttpOutcome
  | response (status : Nat) (statusText : String) (body : String)
  | thrown (message : Option String)
deriving DecidableEq, Repr

/-- The observable effect of one `processDelivery` call: the saved delivery
record, the saved owning webhook (when it was found), and whether the call
re-throws (`raises = true` exactly on the `catch` path, which is what makes
the Bull queue schedule a retry). -/
structure ProcessResult where
  delivery : WebhookDelivery
  webhook : Option Webhook
  raises : Bool
deriving DecidableEq, Repr

/-- `processDelivery(jobData)` on a found delivery record `d` and the
looked-up owning webhook `w` (`none` when `findOne` misses). Translated
line by line from `webhook-delivery.service.ts`:
1. `delivery.attemptCount += 1` and save.
2. On a completed response: classify `2xx → SUCCESS` else `FAILED`; set
   `httpStatus`, `deliveredAt`, `responseBody` truncated to 1000; on non-2xx
   also `errorMessage = "HTTP <status>: <statusText>"`. Then update the
   webhook: on 2xx `failureCount = 0`, `lastTriggeredAt = now`; otherwise
   `failureCount += 1` and deactivate once `failureCount >= 10`. No throw.
3. On a thrown exception: `status = FAILED`, `errorMessage` = the message
   truncated to 500 (absent when the message is absent); webhook
   `failureCount += 1` (deactivating at 10) only when
   `attemptCount >= MAX_RETRIES`; re-throw. -/
def processDelivery (d : WebhookDelivery) (w : Option Webhook)
    (outcome : HttpOutcome) (now : Nat) : ProcessResult :=
  let d1 : WebhookDelivery := { d with attemptCount := d.attemptCount + 1 }
  match outcome with
  | .response status statusText body =>
    let d2 : WebhookDelivery :=
      { d1 with
        status := if 200 ≤ status ∧ status < 300 then .success else .failed
        httpStatus := some status
        deliveredAt := some now
        responseBody := some (truncate body 1000)
        errorMessage :=
          if 200 ≤ status ∧ status < 300 then d1.errorMessage
          else some ("HTTP " ++ toString status ++ ": " ++ statusText) }
    let w2 : Option Webhook := w.map fun wh =>
      if 200 ≤ status ∧ status < 300 then
        { wh with failureCount := 0, lastTriggeredAt := some now }
      else
        let fc := wh.failureCount + 1
        { wh with
          failureCount := fc
          isActive := if fc ≥ 10 then false else wh.isActive }
    ⟨d2, w2, false⟩
  | .thrown message =>
    let d2 : WebhookDelivery :=
      { d1 with
        status := .failed
        errorMessage := message.map fun msg => truncate msg 500 }
    let w2 : Option Webhook := w.map fun wh =>
      if d1.attemptCount ≥ MAX_RETRIES then
        let fc := wh.failureCount + 1
        { wh with
          failureCount := fc
          isActive := if fc ≥ 10 then false else wh.isActive }
      else wh
    ⟨d2, w2, true⟩

/-- The `@Process('deliver')` handler in `webhook.processor.ts`: it calls
`processDelivery` and re-throws any error unchanged, so its observable
effect equals `processDelivery`'s. -/
def handleDelivery (d : WebhookDelivery) (w : Option Webhook)
    (outcome : HttpOutcome) (now : Nat) : ProcessResult :=
  processDelivery d w outcome now

/-- Registry `incrementFailureCount(id)` on the found webhook:
`failureCount += 1`; deactivate once `failureCount >= 10`. -/
def incrementFailureCount (w : Webhook) : Webhook :=
  let fc := w.failureCount + 1
  { w with
    failureCount := fc
    isActive := if fc ≥ 10 then false else w.isActive }

/-- Registry `resetFailureCount(id)` on the found webhook. -/
def resetFailureCount (w : Webhook) : Webhook :=
  { w with failureCount := 0 }

/-- Registry `updateLastTriggered(id)` on the found webhook. -/
def updateLastTriggered (w : Webhook) (now : Nat) : Webhook :=
  { w with lastTriggeredAt := some now }

/-- `UpdateWebhookDto`: the only fields a management `PATCH` may carry
(`url`, `events`, `secret`, `isActive`), each optional. An absent field is
not an own property of the DTO instance, so `Object.assign` leaves the
corresponding entity column untouched. -/
structure UpdateWebhookDto where
  url : Option String
  events : Option (List String)
  secret : Option String
  isActive : Option Bool
deriving DecidableEq, Repr

/-- `Object.assign(webhook, updateWebhookDto)`: overwrite exactly the fields
present in the patch. -/
def applyPatch (w : Webhook) (p : UpdateWebhookDto) : Webhook :=
  { w with
    url := p.url.getD w.url
    events := p.events.getD w.events
    secret := p.secret.getD w.secret
    isActive := p.isActive.getD w.isActive }

/-- Registry `update(id, patch)` on the found webhook. `isValidUrl` (the
WHATWG `URL` parser plus an http/https scheme check) is an external
platform facility, passed in as the parameter `valid`; a present but
invalid `url` is rejected with `BadRequestException` before any mutation. -/
def update (valid : String → Bool) (w : Webhook) (p : UpdateWebhookDto) :
    Except String Webhook :=
  match p.url with
  | some u =>
    if valid u then .ok (applyPatch w p) else .error "Invalid webhook URL"
  | none => .ok (applyPatch w p)

/-- Registry `findOne(id)`: the stored entity, returned to the controller
unchanged (`webhook.entity.ts` declares `secret` as a plain selected column
with no serialization exclusion, so the response carries every column). -/
def findOne (store : List Webhook) (id : String) : Option Webhook :=
  store.find? fun w => w.id == id

/-- Registry `findAll(userId?)`: every stored entity (filtered by owner when
given), returned to the controller unchanged. -/
def findAll (store : List Webhook) (userId : Option String) : List Webhook :=
  match userId with
  | some uid => store.filter fun w => w.userId == uid
  | none => store

/-- A `webhook_queue` job as added by `queueDelivery`, including its retry
option `attempts: MAX_RETRIES`. -/
structure QueuedJob where
  deliveryId : String
  webhookId : String
  url : String
  secret : String
  eventType : String
  payload : String
  attempts : Nat
deriving DecidableEq, Repr

/-- The delivery record `queueDelivery` creates and saves
(`status = PENDING`, `attemptCount = 0`); the uuid the store assigns is
modelled by the counter value `nextId`. -/
def mkPendingDelivery (nextId : Nat) (w : Webhook) (eventType payload : String) :
    WebhookDelivery :=
  { id := toString nextId
    webhookId := w.id
    eventType := eventType
    payload := payload
    status := .pending
    attemptCount := 0
    httpStatus := none
    responseBody := none
    errorMessage := none
    deliveredAt := none }

/-- `queueDelivery(webhook, eventType, payload)`: consult the rate limiter
first; when rejected, return without creating anything; when admitted,
create and save one pending delivery record and enqueue one job carrying
`{deliveryId, webhookId, url, secret, eventType, payload}` with
`attempts: MAX_RETRIES`. Returns the created pair (when any), the mutated
rate-limit map and the next fresh id. -/
def queueDelivery (st : RateLimitMap) (now : Nat) (nextId : Nat) (w : Webhook)
    (eventType payload : String) :
    Option (WebhookDelivery × QueuedJob) × RateLimitMap × Nat :=
  match checkRateLimit st now w.id with
  | (false, st1) => (none, st1, nextId)
  | (true, st1) =>
    let d := mkPendingDelivery nextId w eventType payload
    let j : QueuedJob :=
      { deliveryId := d.id
        webhookId := w.id
        url := w.url
        secret := w.secret
        eventType := eventType
        payload := payload
        attempts := MAX_RETRIES }
    (some (d, j), st1, nextId + 1)

/-- The `for (const webhook of filteredWebhooks)` loop of `triggerEvent`:
call `queueDelivery` on each webhook in order, threading the rate-limit map
and the id counter, collecting the created records and jobs. -/
def deliverLoop (eventType payload : String) (now : Nat) :
    List Webhook → RateLimitMap → Nat →
    List WebhookDelivery × List QueuedJob × RateLimitMap × Nat
  | [], st, nextId => ([], [], st, nextId)
  | w :: ws, st, nextId =>
    match queueDelivery st now nextId w eventType payload with
    | (none, st1, nid1) => deliverLoop eventType payload now ws st1 nid1
    | (some (d, j), st1, nid1) =>
      let r := deliverLoop eventType payload now ws st1 nid1
      (d :: r.1, j :: r.2.1, r.2.2)

/-- The query-builder filter of `triggerEvent`: `isActive = true` and the
`events` column contains `eventType`. -/
def findActiveForEventQuery (store : List Webhook) (eventType : String) :
    List Webhook :=
  store.filter fun w => w.isActive && w.events.contains eventType

/-- `triggerEvent(eventType, payload, userId?)`: query the active
subscriptions matching the event, filter to the owner when given, then queue
a delivery per remaining webhook. Returns the created delivery records, the
enqueued jobs, the mutated rate-limit map and the next fresh id. -/
def triggerEvent (store : List Webhook) (eventType payload : String)
    (userId : Option String) (st : RateLimitMap) (now : Nat) (nextId : Nat) :
    List WebhookDelivery × List QueuedJob × RateLimitMap × Nat :=
  let webhooks := findActiveForEventQuery store eventType
  let filteredWebhooks :=
    match userId with
    | some uid => webhooks.filter fun w => w.userId == uid
    | none => webhooks
  deliverLoop eventType payload now filteredWebhooks st nextId

/-- The record `getDeliveryStats` returns; `successRate` is exact rational
arithmetic standing for the JavaScript number `success / total * 100`. -/
structure DeliveryStats where
  total : Nat
  success : Nat
  failed : Nat
  pending : Nat
  successRate : ℚ
deriving DecidableEq, Repr

/-- `getDeliveryStats(webhookId)`: full scan of the subscription's records,
counts by status, `successRate = success / total * 100` guarded by
`total > 0`. -/
def getDeliveryStats (records : List WebhookDelivery) (webhookId : String) :
    DeliveryStats :=
  let deliveries := records.filter fun d => d.webhookId == webhookId
  let total := deliveries.length
  let success := (deliveries.filter fun d => d.status == .success).length
  let failed := (deliveries.filter fun d => d.status == .failed).length
  let pending := (deliveries.filter fun d => d.status == .pending).length
  { total := total
    success := success
    failed := failed
    pending := pending
    successRate := if total > 0 then (success : ℚ) / (total : ℚ) * 100 else 0 }

/-! Spec-side characterizations, written from the specification's words, to
be compared with the source translations above. -/

/-- From the spec: the subscriptions a dispatch considers are those that are
active, have `eventType` in their event set, and match the owner filter when
one is given. -/
def eligibleSpec (store : List Webhook) (eventType : String)
    (userId : Option String) : List Webhook :=
  store.filter fun w =>
    w.isActive && w.events.contains eventType &&
      match userId with
      | some uid => w.userId == uid
      | none => true

/-- From the spec: running the rate limiter over a list of subscriptions in
order, the sublist of admitted ones. -/
def admittedSeq (now : Nat) : List Webhook → RateLimitMap → List Webhook
  | [], _ => []
  | w :: ws, st =>
    match checkRateLimit st now w.id with
    | (true, st1) => w :: admittedSeq now ws st1
    | (false, st1) => admittedSeq now ws st1

/-- The rate-limit map after `n` successive limiter calls for the same
subscription id, all at the same instant `now`. -/
def iterCalls (st : RateLimitMap) (now : Nat) (id : String) : Nat → RateLimitMap
  | 0 => st
  | n + 1 => (checkRateLimit (iterCalls st now id n) now id).2

/-- The decision of the `(n+1)`-st of a run of successive limiter calls for
the same subscription id, all at the same instant `now`. -/
def callResult (st : RateLimitMap) (now : Nat) (id : String) (n : Nat) : Bool :=
  (checkRateLimit (iterCalls st now id n) now id).1

/-! Sample entities used by witnesses and counterexamples. -/

/-- A freshly created, healthy subscription. -/
def sampleWebhook : Webhook :=
  { id := "w1"
    userId := "u1"
    url := "https://example.com/hook"
    events := ["split.created"]
    secret := "sec"
    isActive := true
    failureCount := 0
    lastTriggeredAt := none }

/-- A freshly created pending delivery record for `sampleWebhook`. -/
def sampleDelivery : WebhookDelivery :=
  { id := "d1"
    webhookId := "w1"
    eventType := "split.created"
    payload := "p"
    status := .pending
    attemptCount := 0
    httpStatus := none
    responseBody := none
    errorMessage := none
    deliveredAt := none }

/-! Helper lemmas. -/

theorem mapGet_mapSet_self (m : RateLimitMap) (k : String) (v : RateLimitEntry) :
    mapGet (mapSet m k v) k = some v := by
  induction m with
  | nil => simp [mapSet, mapGet]
  | cons kv rest ih =>
    obtain ⟨k0, v0⟩ := kv
    by_cases h : k0 = k
    · simp [mapSet, mapGet, h]
    · simp [mapSet, mapGet, h, ih]

/-- After `n` same-instant limiter calls for a key absent from the initial
map, the key's entry is `count = min n 10` inside a window ending at
`now + 60000` (absent for `n = 0`). -/
theorem iterCalls_invariant (st : RateLimitMap) (now : Nat) (id : String)
    (h : mapGet st id = none) (n : Nat) :
    mapGet (iterCalls st now id n) id =
      if n = 0 then none
      else some ⟨min n MAX_REQUESTS_PER_WINDOW, now + RATE_LIMIT_WINDOW_MS⟩ := by
  induction n with
  | zero => simpa [iterCalls] using h
  | succ n ih =>
    rw [iterCalls, checkRateLimit]
    by_cases hn : n = 0
    · subst hn
      simp only [if_pos rfl] at ih
      rw [ih]
      simp [mapGet_mapSet_self, MAX_REQUESTS_PER_WINDOW]
    · rw [if_neg hn] at ih
      rw [ih]
      have hexp : ¬ now > now + RATE_LIMIT_WINDOW_MS := by omega
      by_cases hge : min n MAX_REQUESTS_PER_WINDOW ≥ MAX_REQUESTS_PER_WINDOW
      · simp only [hexp, if_false, hge, if_true]
        rw [ih]
        have h10 : min n MAX_REQUESTS_PER_WINDOW =
            min (n + 1) MAX_REQUESTS_PER_WINDOW := by
          simp [MAX_REQUESTS_PER_WINDOW] at hge ⊢
          omega
        simp [h10]
      · simp only [hexp, if_false, hge]
        rw [mapGet_mapSet_self]
        have h10 : min n MAX_REQUESTS_PER_WINDOW + 1 =
            min (n + 1) MAX_REQUESTS_PER_WINDOW := by
          simp [MAX_REQUESTS_PER_WINDOW] at hge ⊢
          omega
        simp [h10]

/-- C6: for every subscription id, with window `W = 60000 ms` and capacity
`C = 10`: a limiter call finding no window entry or an expired window
returns true and resets the count to 1; and in a run of same-window calls
starting from no entry, the `(n+1)`-st call is admitted exactly when
`n < 10` — so the first 10 calls return true and the 11th and all later
calls return false. -/
theorem rate_limiter_boundary (st : RateLimitMap) (now : Nat) (id : String) :
    ((mapGet st id = none ∨ ∃ e, mapGet st id = some e ∧ now > e.resetAt) →
      (checkRateLimit st now id).1 = true ∧
      mapGet (checkRateLimit st now id).2 id =
        some ⟨1, now + RATE_LIMIT_WINDOW_MS⟩) ∧
    (mapGet st id = none →
      ∀ n : Nat, callResult st now id n = decide (n < MAX_REQUESTS_PER_WINDOW)) := by
  constructor
  · rintro (h | ⟨e, he, hexp⟩)
    · rw [checkRateLimit, h]
      exact ⟨rfl, mapGet_mapSet_self _ _ _⟩
    · have hck : checkRateLimit st now id =
          (true, mapSet st id ⟨1, now + RATE_LIMIT_WINDOW_MS⟩) := by
        rw [checkRateLimit, he]
        simp [hexp]
      rw [hck]
      exact ⟨rfl, mapGet_mapSet_self _ _ _⟩
  · intro h n
    rw [callResult, checkRateLimit, iterCalls_invariant st now id h n]
    by_cases hn : n = 0
    · subst hn
      simp [MAX_REQUESTS_PER_WINDOW]
    · rw [if_neg hn]
      have hexp : ¬ now > now + RATE_LIMIT_WINDOW_MS := by omega
      by_cases hge : n < MAX_REQUESTS_PER_WINDOW
      · have : ¬ min n MAX_REQUESTS_PER_WINDOW ≥ MAX_REQUESTS_PER_WINDOW := by
          simp [MAX_REQUESTS_PER_WINDOW] at hge ⊢
          omega
        simp [hexp, this, hge]
      · have : min n MAX_REQUESTS_PER_WINDOW ≥ MAX_REQUESTS_PER_WINDOW := by
          simp [MAX_REQUESTS_PER_WINDOW] at hge ⊢
          omega
        simp [hexp, this, hge]

/-- Witness for C6: on an empty map at instant 0, the first call is admitted
with a fresh count of 1, and the 11th same-window call is rejected. -/
theorem rate_limiter_boundary_witness :
    (checkRateLimit [] 0 "w1").1 = true ∧ callResult [] 0 "w1" 10 = false := by
  refine ⟨((rate_limiter_boundary [] 0 "w1").1 (Or.inl rfl)).1, ?_⟩
  have h := (rate_limiter_boundary [] 0 "w1").2 rfl 10
  simpa [MAX_REQUESTS_PER_WINDOW] using h

/-- C4: for every HTTP status obtained by a completed request, the delivery
record is classified `success` iff `200 ≤ status < 300` and `failed`
otherwise, and in both cases `httpStatus` is set to the status and
`deliveredAt` is set. -/
theorem delivery_status_classification (status : Nat) (statusText body : String)
    (d : WebhookDelivery) (w : Option Webhook) (now : Nat) :
    ((processDelivery d w (.response status statusText body) now).delivery.status =
        DeliveryStatus.success ↔ 200 ≤ status ∧ status < 300) ∧
    ((processDelivery d w (.response status statusText body) now).delivery.status =
        DeliveryStatus.failed ↔ ¬(200 ≤ status ∧ status < 300)) ∧
    (processDelivery d w (.response status statusText body) now).delivery.httpStatus =
      some status ∧
    (processDelivery d w (.response status statusText body) now).delivery.deliveredAt =
      some now := by
  by_cases h1 : 200 ≤ status <;> by_cases h2 : status < 300 <;>
    simp [processDelivery, h1, h2]

/-- Witness for C4: a 201 response is classified `success`, a 404 response
`failed`. -/
theorem delivery_status_classification_witness :
    (processDelivery sampleDelivery none
        (.response 201 "Created" "ok") 7).delivery.status = DeliveryStatus.success ∧
    (processDelivery sampleDelivery none
        (.response 404 "Not Found" "") 7).delivery.status = DeliveryStatus.failed :=
  ⟨(delivery_status_classification 201 "Created" "ok" sampleDelivery none 7).1.mpr
      (by omega),
   (delivery_status_classification 404 "Not Found" "" sampleDelivery none 7).2.1.mpr
      (by omega)⟩

/-- Every delivery record has exactly one of the three statuses, so the
three status filters partition the scanned list. -/
theorem statusPartition (l : List WebhookDelivery) :
    l.length = (l.filter fun d => d.status == DeliveryStatus.success).length +
      (l.filter fun d => d.status == DeliveryStatus.failed).length +
      (l.filter fun d => d.status == DeliveryStatus.pending).length := by
  induction l with
  | nil => simp
  | cons d l ih =>
    cases hd : d.status <;> simp [List.filter_cons, hd] <;> omega

/-- The spec's stats example: records with statuses
`[success, success, failed, pending]`. -/
def exampleRecords : List WebhookDelivery :=
  [{ sampleDelivery with id := "e1", status := .success },
   { sampleDelivery with id := "e2", status := .success },
   { sampleDelivery with id := "e3", status := .failed },
   { sampleDelivery with id := "e4", status := .pending }]

/-- C7: `getDeliveryStats` returns the size of the subscription's record
list, the per-status counts (which sum to the total), and
`successRate = success / total × 100` when `total > 0`, `0` when
`total = 0`; on the spec's example it returns
`{total 4, success 2, failed 1, pending 1, successRate 50}`. -/
theorem delivery_stats_spec (records : List WebhookDelivery) (id : String) :
    (getDeliveryStats records id).total =
      (records.filter fun d => d.webhookId == id).length ∧
    (getDeliveryStats records id).success =
      (records.filter fun d => d.webhookId == id).countP
        (fun d => d.status == DeliveryStatus.success) ∧
    (getDeliveryStats records id).failed =
      (records.filter fun d => d.webhookId == id).countP
        (fun d => d.status == DeliveryStatus.failed) ∧
    (getDeliveryStats records id).pending =
      (records.filter fun d => d.webhookId == id).countP
        (fun d => d.status == DeliveryStatus.pending) ∧
    (getDeliveryStats records id).total =
      (getDeliveryStats records id).success + (getDeliveryStats records id).failed +
        (getDeliveryStats records id).pending ∧
    ((getDeliveryStats records id).total > 0 →
      (getDeliveryStats records id).successRate =
        ((getDeliveryStats records id).success : ℚ) /
          ((getDeliveryStats records id).total : ℚ) * 100) ∧
    ((getDeliveryStats records id).total = 0 →
      (getDeliveryStats records id).successRate = 0) ∧
    (getDeliveryStats exampleRecords "w1").total = 4 ∧
    (getDeliveryStats exampleRecords "w1").success = 2 ∧
    (getDeliveryStats exampleRecords "w1").failed = 1 ∧
    (getDeliveryStats exampleRecords "w1").pending = 1 ∧
    (getDeliveryStats exampleRecords "w1").successRate = 50 := by
  refine ⟨rfl, ?_, ?_, ?_, ?_, ?_, ?_, rfl, rfl, rfl, rfl, ?_⟩
  · rw [List.countP_eq_length_filter]
    rfl
  · rw [List.countP_eq_length_filter]
    rfl
  · rw [List.countP_eq_length_filter]
    rfl
  · exact statusPartition _
  · intro h
    simp only [getDeliveryStats] at h ⊢
    rw [if_pos h]
  · intro h
    simp only [getDeliveryStats] at h ⊢
    rw [if_neg (by omega)]
  · show (if (4 : Nat) > 0 then ((2 : Nat) : ℚ) / ((4 : Nat) : ℚ) * 100 else 0) = 50
    norm_num

/-- Witness for C7: on the spec's example the success rate equals
`success / total × 100`. -/
theorem delivery_stats_spec_witness :
    (getDeliveryStats exampleRecords "w1").successRate =
      ((getDeliveryStats exampleRecords "w1").success : ℚ) /
        ((getDeliveryStats exampleRecords "w1").total : ℚ) * 100 :=
  (delivery_stats_spec exampleRecords "w1").2.2.2.2.2.1 (by decide)

/-- One queue-driven retry of the same dispatch: the job reuses the same
delivery record, and the webhook keeps its previous state when
`processDelivery` leaves it untouched. -/
def attemptStep (outcome : HttpOutcome) (now : Nat)
    (s : WebhookDelivery × Webhook) : WebhookDelivery × Webhook :=
  let r := processDelivery s.1 (some s.2) outcome now
  (r.delivery, r.webhook.getD s.2)

/-- A pending delivery record on its third (final) queue attempt. -/
def sampleDeliveryTwo : WebhookDelivery := { sampleDelivery with attemptCount := 2 }

/-- C3: when the HTTP call itself throws, `processDelivery` marks the record
`failed` with the exception message truncated to 500 characters, leaves
`httpStatus` and `deliveredAt` unset, increments `attemptCount`, and
re-raises; the owning webhook's failure counter is incremented exactly when
the attempt was the final allowed one (`attemptCount ≥ 3`), so three thrown
attempts of one dispatch leave `attemptCount = 3` and add exactly one
failure credit. -/
theorem thrown_attempt_spec (d : WebhookDelivery) (w : Webhook) (msg : String)
    (now : Nat) (hhs : d.httpStatus = none) (hda : d.deliveredAt = none) :
    (processDelivery d (some w) (.thrown (some msg)) now).delivery.status =
      DeliveryStatus.failed ∧
    (processDelivery d (some w) (.thrown (some msg)) now).delivery.errorMessage =
      some (truncate msg 500) ∧
    (processDelivery d (some w) (.thrown (some msg)) now).delivery.httpStatus = none ∧
    (processDelivery d (some w) (.thrown (some msg)) now).delivery.deliveredAt = none ∧
    (processDelivery d (some w) (.thrown (some msg)) now).delivery.attemptCount =
      d.attemptCount + 1 ∧
    (processDelivery d (some w) (.thrown (some msg)) now).raises = true ∧
    (d.attemptCount + 1 ≥ MAX_RETRIES →
      (processDelivery d (some w) (.thrown (some msg)) now).webhook =
        some { w with
          failureCount := w.failureCount + 1
          isActive := if w.failureCount + 1 ≥ 10 then false else w.isActive }) ∧
    (d.attemptCount + 1 < MAX_RETRIES →
      (processDelivery d (some w) (.thrown (some msg)) now).webhook = some w) ∧
    (d.attemptCount = 0 →
      ((attemptStep (.thrown (some msg)) now (attemptStep (.thrown (some msg)) now
          (attemptStep (.thrown (some msg)) now (d, w)))).1.attemptCount = 3 ∧
       (attemptStep (.thrown (some msg)) now (attemptStep (.thrown (some msg)) now
          (attemptStep (.thrown (some msg)) now (d, w)))).1.status =
         DeliveryStatus.failed ∧
       (attemptStep (.thrown (some msg)) now (attemptStep (.thrown (some msg)) now
          (attemptStep (.thrown (some msg)) now (d, w)))).1.errorMessage =
         some (truncate msg 500) ∧
       (attemptStep (.thrown (some msg)) now (attemptStep (.thrown (some msg)) now
          (attemptStep (.thrown (some msg)) now (d, w)))).2.failureCount =
         w.failureCount + 1)) := by
  refine ⟨rfl, rfl, hhs, hda, rfl, rfl, ?_, ?_, ?_⟩
  · intro h
    simp [processDelivery, h]
  · intro h
    have hlt : ¬ d.attemptCount + 1 ≥ MAX_RETRIES := by omega
    simp [processDelivery, hlt]
  · intro h0
    simp only [attemptStep, processDelivery, Option.map_some', Option.getD_some, h0,
      MAX_RETRIES]
    norm_num

/-- Witness for C3: on the third attempt a timeout re-raises and adds the
single failure credit. -/
theorem thrown_attempt_spec_witness :
    (processDelivery sampleDeliveryTwo (some sampleWebhook)
        (.thrown (some "timeout of 5000ms exceeded")) 9).raises = true ∧
    ((processDelivery sampleDeliveryTwo (some sampleWebhook)
        (.thrown (some "timeout of 5000ms exceeded")) 9).webhook.map
      (fun wh => wh.failureCount)) = some 1 := by
  have h := thrown_attempt_spec sampleDeliveryTwo sampleWebhook
    "timeout of 5000ms exceeded" 9 rfl rfl
  refine ⟨h.2.2.2.2.2.1, ?_⟩
  rw [h.2.2.2.2.2.2.1 (by decide)]
  rfl

/-- A still-active subscription one failure short of the threshold. -/
def nineFailuresWebhook : Webhook := { sampleWebhook with failureCount := 9 }

/-- An auto-deactivated subscription with a few recorded failures. -/
def inactiveWebhook : Webhook :=
  { sampleWebhook with isActive := false, failureCount := 7 }

/-- C1: every failure-recording operation — the registry's
`incrementFailureCount` and the delivery worker's two failure paths —
increments the failure counter and, in the same update, deactivates the
subscription exactly when the new counter reaches 10; recording a success
(the worker's 2xx path, and `resetFailureCount`) resets the counter to 0 but
leaves the active flag unchanged, and no other automatic operation flips an
active subscription to inactive. -/
theorem failure_threshold_deactivation (w w2 : Webhook) (d : WebhookDelivery)
    (now s : Nat) (t b : String) (msg : Option String) (o : HttpOutcome) :
    (incrementFailureCount w).failureCount = w.failureCount + 1 ∧
    ((incrementFailureCount w).failureCount ≥ 10 →
      (incrementFailureCount w).isActive = false) ∧
    ((incrementFailureCount w).failureCount < 10 →
      (incrementFailureCount w).isActive = w.isActive) ∧
    (¬(200 ≤ s ∧ s < 300) →
      (processDelivery d (some w) (.response s t b) now).webhook = some w2 →
      w2.failureCount = w.failureCount + 1 ∧
      (w2.failureCount ≥ 10 → w2.isActive = false) ∧
      (w2.failureCount < 10 → w2.isActive = w.isActive)) ∧
    (d.attemptCount + 1 ≥ MAX_RETRIES →
      (processDelivery d (some w) (.thrown msg) now).webhook = some w2 →
      w2.failureCount = w.failureCount + 1 ∧
      (w2.failureCount ≥ 10 → w2.isActive = false) ∧
      (w2.failureCount < 10 → w2.isActive = w.isActive)) ∧
    (200 ≤ s ∧ s < 300 →
      (processDelivery d (some w) (.response s t b) now).webhook = some w2 →
      w2.failureCount = 0 ∧ w2.isActive = w.isActive) ∧
    (resetFailureCount w).failureCount = 0 ∧
    (resetFailureCount w).isActive = w.isActive ∧
    (updateLastTriggered w now).isActive = w.isActive ∧
    ((processDelivery d (some w) o now).webhook = some w2 →
      w.isActive = true → w2.isActive = false →
      w2.failureCount = w.failureCount + 1 ∧ w2.failureCount ≥ 10) ∧
    (w.isActive = true → (incrementFailureCount w).isActive = false →
      (incrementFailureCount w).failureCount ≥ 10) := by
  refine ⟨rfl, ?_, ?_, ?_, ?_, ?_, rfl, rfl, rfl, ?_, ?_⟩
  · intro h
    simp only [incrementFailureCount] at h ⊢
    rw [if_pos h]
  · intro h
    simp only [incrementFailureCount] at h ⊢
    rw [if_neg (by omega)]
  · intro hns heq
    simp only [processDelivery, hns, if_false, Option.map_some'] at heq
    obtain rfl : _ = w2 := Option.some.inj heq
    refine ⟨rfl, fun h => ?_, fun h => ?_⟩
    · simp only at h ⊢
      rw [if_pos h]
    · simp only at h ⊢
      rw [if_neg (by omega)]
  · intro hfin heq
    simp only [processDelivery, hfin, if_true, Option.map_some'] at heq
    obtain rfl : _ = w2 := Option.some.inj heq
    refine ⟨rfl, fun h => ?_, fun h => ?_⟩
    · simp only at h ⊢
      rw [if_pos h]
    · simp only at h ⊢
      rw [if_neg (by omega)]
  · intro hs heq
    simp only [processDelivery, hs, if_true, Option.map_some'] at heq
    obtain rfl : _ = w2 := Option.some.inj heq
    exact ⟨rfl, rfl⟩
  · intro heq hact hdeact
    cases o with
    | response s0 t0 b0 =>
      by_cases h2 : 200 ≤ s0 ∧ s0 < 300
      · simp only [processDelivery, h2, if_true, Option.map_some'] at heq
        obtain rfl : _ = w2 := Option.some.inj heq
        simp [hact] at hdeact
      · simp only [processDelivery, h2, if_false, Option.map_some'] at heq
        obtain rfl : _ = w2 := Option.some.inj heq
        refine ⟨rfl, ?_⟩
        by_cases h10 : w.failureCount + 1 ≥ 10
        · exact h10
        · simp [h10, hact] at hdeact
    | thrown msg0 =>
      by_cases hfin : d.attemptCount + 1 ≥ MAX_RETRIES
      · simp only [processDelivery, hfin, if_true, Option.map_some'] at heq
        obtain rfl : _ = w2 := Option.some.inj heq
        refine ⟨rfl, ?_⟩
        by_cases h10 : w.failureCount + 1 ≥ 10
        · exact h10
        · simp [h10, hact] at hdeact
      · simp only [processDelivery, hfin, if_false, Option.map_some'] at heq
        obtain rfl : _ = w2 := Option.some.inj heq
        simp [hact] at hdeact
  · intro hact hdeact
    simp only [incrementFailureCount] at hdeact ⊢
    by_cases h10 : w.failureCount + 1 ≥ 10
    · exact h10
    · rw [if_neg h10, hact] at hdeact
      exact absurd hdeact (by simp)

/-- Witness for C1: the failure that brings the counter from 9 to 10
deactivates; a 2xx delivery for an already-deactivated subscription resets
the counter to 0 yet leaves it deactivated. -/
theorem failure_threshold_deactivation_witness :
    (incrementFailureCount nineFailuresWebhook).isActive = false ∧
    ({ inactiveWebhook with
        failureCount := 0, lastTriggeredAt := some 5 } : Webhook).failureCount = 0 ∧
    ({ inactiveWebhook with
        failureCount := 0, lastTriggeredAt := some 5 } : Webhook).isActive = false := by
  have h1 := failure_threshold_deactivation nineFailuresWebhook nineFailuresWebhook
    sampleDelivery 0 500 "" "" none (.thrown none)
  have h2 := failure_threshold_deactivation inactiveWebhook
    { inactiveWebhook with failureCount := 0, lastTriggeredAt := some 5 }
    sampleDelivery 5 200 "OK" "" none (.thrown none)
  have hsucc := h2.2.2.2.2.2.1 (by omega) rfl
  exact ⟨h1.2.1 (by decide), hsucc.1, hsucc.2⟩

/-- C2 counterexample: a 500 response completes `handleDelivery` without
raising — the Bull queue retries a job only when its handler throws — while
a thrown network timeout does raise; so a non-2xx response is NOT treated
like a network/timeout exception for retry purposes. -/
theorem non2xx_not_retried_counterexample :
    (handleDelivery sampleDelivery (some sampleWebhook)
        (.response 500 "Internal Server Error" "") 0).raises = false ∧
    (handleDelivery sampleDelivery (some sampleWebhook)
        (.thrown (some "timeout of 5000ms exceeded")) 0).raises = true :=
  ⟨rfl, rfl⟩

/-- C2 (amended): a non-2xx response is recorded as `failed` but
`processDelivery` returns normally, so the queue schedules no retry for it;
only a thrown network/timeout exception raises and is retried, and every
queued job carries the 3-attempt ceiling. -/
theorem non2xx_completes_without_retry (d : WebhookDelivery) (w : Option Webhook)
    (s now : Nat) (t b : String) (msg : Option String) (st : RateLimitMap)
    (nid : Nat) (wh : Webhook) (et pl : String)
    (p : WebhookDelivery × QueuedJob) :
    (¬(200 ≤ s ∧ s < 300) →
      (handleDelivery d w (.response s t b) now).raises = false ∧
      (handleDelivery d w (.response s t b) now).delivery.status =
        DeliveryStatus.failed) ∧
    (handleDelivery d w (.thrown msg) now).raises = true ∧
    ((queueDelivery st now nid wh et pl).1 = some p →
      p.2.attempts = MAX_RETRIES) := by
  refine ⟨fun hns => ⟨rfl, ?_⟩, rfl, fun hq => ?_⟩
  · simp [handleDelivery, processDelivery, hns]
  · rcases hc : checkRateLimit st now wh.id with ⟨allowed, st1⟩
    cases allowed
    · rw [queueDelivery, hc] at hq
      exact absurd hq (by simp)
    · rw [queueDelivery, hc] at hq
      obtain rfl : _ = p := Option.some.inj hq
      rfl

/-- Witness for C2 (amended): a concrete 404 response completes without
raising. -/
theorem non2xx_completes_without_retry_witness :
    (handleDelivery sampleDelivery none (.response 404 "Not Found" "") 3).raises =
      false :=
  ((non2xx_completes_without_retry sampleDelivery none 404 3 "Not Found" "" none
      [] 0 sampleWebhook "split.created" "p"
      (sampleDelivery, ⟨"0", "w1", "", "", "", "", 3⟩)).1 (by omega)).1

/-- `substring(0, n)` yields at most `n` characters. -/
theorem truncate_length_le (s : String) (n : Nat) : (truncate s n).length ≤ n := by
  show (s.data.take n).length ≤ n
  rw [List.length_take]
  exact min_le_left _ _

/-- A 600-character HTTP reason phrase. -/
def longStatusText : String := ⟨List.replicate 600 'x'⟩

/-- C8 counterexample: on the non-2xx response path `errorMessage` is the
untruncated `"HTTP <status>: <statusText>"`, so a 600-character status text
yields a 610-character `errorMessage`, exceeding the claimed 500-character
bound. -/
theorem errorMessage_unbounded_counterexample :
    500 < (((processDelivery sampleDelivery (some sampleWebhook)
        (.response 500 longStatusText "") 0).delivery.errorMessage).getD "").length := by
  have h : ((processDelivery sampleDelivery (some sampleWebhook)
      (.response 500 longStatusText "") 0).delivery.errorMessage) =
      some ("HTTP " ++ toString (500 : Nat) ++ ": " ++ longStatusText) := by
    have hns : ¬(200 ≤ (500 : Nat) ∧ (500 : Nat) < 300) := by omega
    simp [processDelivery, hns]
  rw [h, Option.getD_some, String.length_append, String.length_append,
    String.length_append]
  have h5 : ("HTTP " : String).length = 5 := rfl
  have h3 : (toString (500 : Nat)).length = 3 := rfl
  have h2 : (": " : String).length = 2 := rfl
  have h600 : longStatusText.length = 600 := by
    show (List.replicate 600 'x').length = 600
    exact List.length_replicate 600 'x'
  omega

/-- C8 (amended): `responseBody` is truncated to at most 1000 characters on
the response path and left unchanged on the exception path; `errorMessage`
is truncated to at most 500 characters on the exception path; but on the
non-2xx response path `errorMessage` is the untruncated
`"HTTP <status>: <statusText>"`, whose length is unbounded in the status
text. -/
theorem truncation_amended (d : WebhookDelivery) (w : Option Webhook)
    (s now : Nat) (t b msg : String)
    (hrb : ∀ x ∈ d.responseBody, x.length ≤ 1000) :
    (∀ x ∈ (processDelivery d w (.response s t b) now).delivery.responseBody,
      x.length ≤ 1000) ∧
    (∀ x ∈ (processDelivery d w (.thrown (some msg)) now).delivery.responseBody,
      x.length ≤ 1000) ∧
    (∀ x ∈ (processDelivery d w (.thrown (some msg)) now).delivery.errorMessage,
      x.length ≤ 500) ∧
    (¬(200 ≤ s ∧ s < 300) →
      (processDelivery d w (.response s t b) now).delivery.errorMessage =
        some ("HTTP " ++ toString s ++ ": " ++ t)) := by
  refine ⟨?_, ?_, ?_, fun hns => by simp [processDelivery, hns]⟩
  · intro x hx
    simp only [processDelivery, Option.mem_def, Option.some.injEq] at hx
    subst hx
    exact truncate_length_le b 1000
  · intro x hx
    simp only [processDelivery, Option.mem_def] at hx
    exact hrb x hx
  · intro x hx
    simp only [processDelivery, Option.map_some', Option.mem_def,
      Option.some.injEq] at hx
    subst hx
    exact truncate_length_le msg 500

/-- Witness for C8 (amended): a concrete non-2xx response stores the
untruncated formatted message, and the exception path stores a bounded one. -/
theorem truncation_amended_witness :
    (processDelivery sampleDelivery none (.response 500 "Oops" "") 0).delivery.errorMessage =
      some ("HTTP " ++ toString (500 : Nat) ++ ": " ++ "Oops") :=
  (truncation_amended sampleDelivery none 500 0 "Oops" "" ""
      (by simp [sampleDelivery])).2.2.2 (by omega)

/-- The admitted sublist is a sublist of the input list. -/
theorem admittedSeq_subset (now : Nat) :
    ∀ (ws : List Webhook) (st : RateLimitMap) (x : Webhook),
      x ∈ admittedSeq now ws st → x ∈ ws := by
  intro ws
  induction ws with
  | nil => intro st x hx; simp [admittedSeq] at hx
  | cons w ws ih =>
    intro st x hx
    rcases h : checkRateLimit st now w.id with ⟨allowed, st1⟩
    rw [admittedSeq, h] at hx
    cases allowed with
    | false => exact List.mem_cons_of_mem _ (ih st1 x hx)
    | true =>
      rcases List.mem_cons.mp hx with rfl | hx'
      · exact List.mem_cons_self _ _
      · exact List.mem_cons_of_mem _ (ih st1 x hx')

/-- The delivery loop creates exactly one pending record and one job per
admitted webhook, in order. -/
theorem deliverLoop_spec (et pl : String) (now : Nat) :
    ∀ (ws : List Webhook) (st : RateLimitMap) (nid : Nat),
      (deliverLoop et pl now ws st nid).1.map (fun r => r.webhookId) =
        (admittedSeq now ws st).map (fun w => w.id) ∧
      (deliverLoop et pl now ws st nid).2.1.map (fun j => j.webhookId) =
        (admittedSeq now ws st).map (fun w => w.id) ∧
      ∀ r ∈ (deliverLoop et pl now ws st nid).1,
        r.status = DeliveryStatus.pending ∧ r.attemptCount = 0 ∧
          r.eventType = et := by
  intro ws
  induction ws with
  | nil =>
    intro st nid
    refine ⟨rfl, rfl, ?_⟩
    intro r hr
    simp [deliverLoop] at hr
  | cons w ws ih =>
    intro st nid
    rcases h : checkRateLimit st now w.id with ⟨allowed, st1⟩
    cases allowed with
    | false =>
      have e1 : deliverLoop et pl now (w :: ws) st nid =
          deliverLoop et pl now ws st1 nid := by
        rw [deliverLoop, queueDelivery, h]
      have e2 : admittedSeq now (w :: ws) st = admittedSeq now ws st1 := by
        rw [admittedSeq, h]
      rw [e1, e2]
      exact ih st1 nid
    | true =>
      have e1 : deliverLoop et pl now (w :: ws) st nid =
          (mkPendingDelivery nid w et pl ::
            (deliverLoop et pl now ws st1 (nid + 1)).1,
           ({ deliveryId := (mkPendingDelivery nid w et pl).id
              webhookId := w.id
              url := w.url
              secret := w.secret
              eventType := et
              payload := pl
              attempts := MAX_RETRIES } : QueuedJob) ::
            (deliverLoop et pl now ws st1 (nid + 1)).2.1,
           (deliverLoop et pl now ws st1 (nid + 1)).2.2) := by
        rw [deliverLoop, queueDelivery, h]
      have e2 : admittedSeq now (w :: ws) st = w :: admittedSeq now ws st1 := by
        rw [admittedSeq, h]
      obtain ⟨ih1, ih2, ih3⟩ := ih st1 (nid + 1)
      rw [e1, e2]
      refine ⟨?_, ?_, ?_⟩
      · simp only [List.map_cons, mkPendingDelivery]
        rw [ih1]
      · simp only [List.map_cons]
        rw [ih2]
      · intro r hr
        rcases List.mem_cons.mp hr with rfl | hr'
        · exact ⟨rfl, rfl, rfl⟩
        · exact ih3 r hr'

/-- The source's query-then-owner-filter pipeline equals the spec's single
eligibility filter. -/
theorem filtered_eq_eligible (store : List Webhook) (et : String)
    (uid : Option String) :
    (match uid with
     | some u => (findActiveForEventQuery store et).filter fun w => w.userId == u
     | none => findActiveForEventQuery store et) = eligibleSpec store et uid := by
  cases uid with
  | none =>
    simp only [findActiveForEventQuery, eligibleSpec]
    congr 1
    funext w
    cases w.isActive <;> simp
  | some u =>
    simp only [findActiveForEventQuery, eligibleSpec, List.filter_filter]
    congr 1
    funext w
    cases w.isActive <;> cases hw : w.events.contains et <;>
      cases hu : w.userId == u <;> simp [hw, hu]

/-- C5: `triggerEvent` creates exactly one pending delivery record
(`status = pending`, `attemptCount = 0`) and one queued job per subscription
that is active, subscribed to the event, owner-matching and admitted by the
rate limiter, in order; and (given distinct ids) a subscription that is
inactive or not subscribed to the event yields no record. -/
theorem trigger_event_fanout (store : List Webhook) (et pl : String)
    (uid : Option String) (st : RateLimitMap) (now nid : Nat) :
    (triggerEvent store et pl uid st now nid).1.map (fun r => r.webhookId) =
      (admittedSeq now (eligibleSpec store et uid) st).map (fun w => w.id) ∧
    (triggerEvent store et pl uid st now nid).2.1.map (fun j => j.webhookId) =
      (admittedSeq now (eligibleSpec store et uid) st).map (fun w => w.id) ∧
    (triggerEvent store et pl uid st now nid).1.length =
      (triggerEvent store et pl uid st now nid).2.1.length ∧
    (∀ r ∈ (triggerEvent store et pl uid st now nid).1,
      r.status = DeliveryStatus.pending ∧ r.attemptCount = 0 ∧
        r.eventType = et) ∧
    ((store.map (fun w => w.id)).Nodup →
      ∀ w0 ∈ store, (w0.isActive = false ∨ w0.events.contains et = false) →
        w0.id ∉ (triggerEvent store et pl uid st now nid).1.map
          (fun r => r.webhookId)) := by
  have hfe : triggerEvent store et pl uid st now nid =
      deliverLoop et pl now (eligibleSpec store et uid) st nid := by
    show deliverLoop et pl now
      (match uid with
       | some u => (findActiveForEventQuery store et).filter fun w => w.userId == u
       | none => findActiveForEventQuery store et) st nid = _
    rw [filtered_eq_eligible store et uid]
  obtain ⟨h1, h2, h3⟩ := deliverLoop_spec et pl now (eligibleSpec store et uid) st nid
  refine ⟨by rw [hfe]; exact h1, by rw [hfe]; exact h2, ?_,
    by rw [hfe]; exact h3, ?_⟩
  · rw [hfe]
    have := congrArg List.length h1
    have := congrArg List.length h2
    simp only [List.length_map] at *
    omega
  · intro hnd w0 hw0 hbad hmem
    rw [hfe, h1] at hmem
    obtain ⟨w1, hw1, hid⟩ := List.mem_map.mp hmem
    have hw1e : w1 ∈ eligibleSpec store et uid :=
      admittedSeq_subset now (eligibleSpec store et uid) st w1 hw1
    rw [eligibleSpec, List.mem_filter] at hw1e
    obtain ⟨hw1s, hw1p⟩ := hw1e
    have heq : w1 = w0 := List.inj_on_of_nodup_map hnd hw1s hw0 hid
    subst heq
    rw [Bool.and_eq_true, Bool.and_eq_true] at hw1p
    obtain ⟨⟨ha, hc⟩, -⟩ := hw1p
    rcases hbad with hb | hb
    · rw [hb] at ha
      exact Bool.false_ne_true ha
    · rw [hb] at hc
      exact Bool.false_ne_true hc

/-- The fan-out example store: two active subscriptions to `split.created`
and one inactive subscription to the same event. -/
def fanoutStore : List Webhook :=
  [sampleWebhook,
   { sampleWebhook with id := "w2", userId := "u2" },
   { sampleWebhook with id := "w3", isActive := false }]

/-- Witness for C5: on the example store the two active subscriptions each
get exactly one record, in order, and the inactive one gets none. -/
theorem trigger_event_fanout_witness :
    (triggerEvent fanoutStore "split.created" "p" none [] 0 0).1.map
      (fun r => r.webhookId) = ["w1", "w2"] ∧
    "w3" ∉ (triggerEvent fanoutStore "split.created" "p" none [] 0 0).1.map
      (fun r => r.webhookId) := by
  have h := trigger_event_fanout fanoutStore "split.created" "p" none [] 0 0
  constructor
  · rw [h.1]
    rfl
  · exact h.2.2.2.2 (by decide) { sampleWebhook with id := "w3", isActive := false }
      (by decide) (Or.inl rfl)

/-- A stored subscription whose signing secret a client should never see in
full. -/
def storedWebhook : Webhook :=
  { sampleWebhook with secret := "whsec_live_full_signing_secret" }

/-- C9 evaluated at the failing input: the management read operations return
the stored entity itself — the `secret` column carries no serialization
exclusion and no masking — so the value sent to the client contains the full
signing secret. This contradicts the spec's `never transmitted back to
clients in full`. -/
theorem read_endpoints_return_full_secret :
    (findOne [storedWebhook] "w1").map (fun w => w.secret) =
      some "whsec_live_full_signing_secret" ∧
    (findAll [storedWebhook] none).map (fun w => w.secret) =
      ["whsec_live_full_signing_secret"] :=
  ⟨rfl, rfl⟩

/-- C10: `update(id, patch)` changes exactly the fields present in the
patch: identity, owner, `failureCount` and `lastTriggeredAt` are always
unchanged, each patchable field is unchanged when absent from the patch and
overwritten when present; consequently a subscription auto-deactivated at
`failureCount ≥ 10` and reactivated by a patch with `isActive = true` keeps
its stale counter and is deactivated again by the very next recorded
failure. -/
theorem update_frame (valid : String → Bool) (w w2 : Webhook)
    (p : UpdateWebhookDto) (h : update valid w p = .ok w2) :
    w2.id = w.id ∧
    w2.userId = w.userId ∧
    w2.failureCount = w.failureCount ∧
    w2.lastTriggeredAt = w.lastTriggeredAt ∧
    (p.url = none → w2.url = w.url) ∧
    (∀ u, p.url = some u → w2.url = u) ∧
    (p.events = none → w2.events = w.events) ∧
    (∀ e, p.events = some e → w2.events = e) ∧
    (p.secret = none → w2.secret = w.secret) ∧
    (∀ x, p.secret = some x → w2.secret = x) ∧
    (p.isActive = none → w2.isActive = w.isActive) ∧
    (∀ a, p.isActive = some a → w2.isActive = a) ∧
    (w.failureCount ≥ 10 → (incrementFailureCount w2).isActive = false) := by
  have hw2 : w2 = applyPatch w p := by
    cases hu : p.url with
    | none =>
      rw [update, hu] at h
      exact (Except.ok.inj h).symm
    | some u =>
      simp only [update, hu] at h
      by_cases hv : valid u
      · rw [if_pos hv] at h
        exact (Except.ok.inj h).symm
      · rw [if_neg hv] at h
        exact absurd h (by simp)
  subst hw2
  refine ⟨rfl, rfl, rfl, rfl, ?_, ?_, ?_, ?_, ?_, ?_, ?_, ?_, ?_⟩
  · intro hp
    simp [applyPatch, hp]
  · intro u hp
    simp [applyPatch, hp]
  · intro hp
    simp [applyPatch, hp]
  · intro e hp
    simp [applyPatch, hp]
  · intro hp
    simp [applyPatch, hp]
  · intro x hp
    simp [applyPatch, hp]
  · intro hp
    simp [applyPatch, hp]
  · intro a hp
    simp [applyPatch, hp]
  · intro hfc
    simp only [incrementFailureCount, applyPatch]
    rw [if_pos (by omega)]

/-- A subscription auto-deactivated at the failure threshold. -/
def deactivatedWebhook : Webhook :=
  { sampleWebhook with isActive := false, failureCount := 10 }

/-- The external reactivation patch: only `isActive` is present. -/
def reactivatePatch : UpdateWebhookDto :=
  { url := none, events := none, secret := none, isActive := some true }

/-- `deactivatedWebhook` after `update` with `reactivatePatch`. -/
def reactivatedWebhook : Webhook :=
  { sampleWebhook with isActive := true, failureCount := 10 }

/-- Witness for C10: reactivating the deactivated subscription keeps
`failureCount = 10`, and the very next recorded failure deactivates it
again. -/
theorem update_frame_witness :
    reactivatedWebhook.failureCount = deactivatedWebhook.failureCount ∧
    (incrementFailureCount reactivatedWebhook).isActive = false := by
  have h := update_frame (fun _ => true) deactivatedWebhook reactivatedWebhook
    reactivatePatch rfl
  exact ⟨h.2.2.1, h.2.2.2.2.2.2.2.2.2.2.2.2 (by decide)⟩

end StellarSplit
